import Mathlib

/-!
Verification of the stack-representation layer (`runtime/stack.h`) and the
page-residency diagnostic tool (`dexlayout/dexdiag.cc`) of the repository.

Machine addresses and 32-bit register bit patterns are modelled as `Nat`
(raw vreg slots hold values reduced modulo `2 ^ 32`, matching the 4-byte
slots of the C++ code); a null object reference is the address `0`.
Components whose implementation lives outside the provided sources
(`LockCountData`'s method bodies, the `WalkStack` loop, the value of the
`kMovingCollector` build constant, and the byte sizes of external types)
are modelled from the specification and are marked as such in their doc
comments.
-/

namespace ArtStack

/-- Modulus for 32-bit raw register slots: each element of `vregs_` is 4 bytes. -/
def u32Mod : Nat := 2 ^ 32

/-- Pointwise update of a `Nat`-indexed array model. -/
def updFn (g : Nat → Nat) (i v : Nat) : Nat → Nat :=
  fun j => if j = i then v else g j

/-- Modelled from the spec: `LockCountData` stores the list of locked-on
objects (`monitors_` in the source header); duplicates mark recursive
locks. The method bodies live in `stack.cc`, which is not among the
provided sources, so they are modelled from spec section 4.2. -/
structure LockCountData where
  monitors : List Nat
deriving DecidableEq

/-- Thread-visible exception state: whether an exception is pending.
The only exception this component raises is IllegalMonitorState. -/
structure ThreadState where
  pendingException : Bool
deriving DecidableEq

/-- Modelled from the spec: `AddMonitor` appends unconditionally, except it
is skipped when an exception is already pending on entry. -/
def LockCountData.AddMonitor (t : ThreadState) (d : LockCountData) (obj : Nat) :
    LockCountData :=
  if t.pendingException then d else { monitors := d.monitors ++ [obj] }

/-- Modelled from the spec: removal takes the most recent matching entry
(the spec's design note fixes this choice for duplicate entries). -/
def removeMostRecent (l : List Nat) (obj : Nat) : List Nat :=
  (l.reverse.erase obj).reverse

/-- Modelled from the spec: `RemoveMonitorOrThrow` clears any pending
exception, removes one matching entry, and raises IllegalMonitorState
(sets the pending exception) when no entry matches. -/
def LockCountData.RemoveMonitorOrThrow (d : LockCountData) (obj : Nat) :
    ThreadState × LockCountData :=
  if obj ∈ d.monitors then
    (⟨false⟩, { monitors := removeMostRecent d.monitors obj })
  else
    (⟨true⟩, d)

/-- Modelled from the spec and the header comment: returns `true` when lock
counting is balanced; otherwise raises IllegalMonitorState (clearing any
already-pending exception first) and returns `false`. The ledger itself is
not modified. -/
def LockCountData.CheckAllMonitorsReleasedOrThrow (t : ThreadState)
    (d : LockCountData) : Bool × ThreadState :=
  if d.monitors.isEmpty then (true, t) else (false, ⟨true⟩)

/-- Interpreter frame (`ShadowFrame`). The two trailing arrays are modelled
as total functions: `vregs j` is the raw 4-byte bit pattern of slot `j`,
and `refs j` is the shadow (reference-array) slot `j`, `0` meaning null.
Only indices below `numberOfVRegs` are meaningful. -/
structure ShadowFrameSt where
  link : Option Nat
  method : Nat
  resultRegister : Option Nat
  dexPcPtr : Option Nat
  codeItemInsns : Nat
  lockCountData : LockCountData
  numberOfVRegs : Nat
  dexPc : Nat
  cachedHotnessCountdown : Int
  hotnessCountdown : Int
  vregs : Nat → Nat
  refs : Nat → Nat

namespace ShadowFrameSt

/-- Source `ShadowFrame::HasReferenceArray`: always returns `true`. -/
def HasReferenceArray (_ : ShadowFrameSt) : Bool := true

/-- Source `ShadowFrame::NumberOfVRegs`. -/
def NumberOfVRegs (f : ShadowFrameSt) : Nat := f.numberOfVRegs

/-- Source `ShadowFrame::GetDexPC`: the stored index when the raw-pointer
form is unset, otherwise the pointer's distance (in code units) from the
start of the instruction stream `code_item_->insns_`. -/
def GetDexPC (f : ShadowFrameSt) : Nat :=
  match f.dexPcPtr with
  | none => f.dexPc
  | some p => p - f.codeItemInsns

/-- Source `ShadowFrame::SetDexPC`: stores the index and nulls the pointer. -/
def SetDexPC (f : ShadowFrameSt) (pc : Nat) : ShadowFrameSt :=
  { f with dexPc := pc, dexPcPtr := none }

/-- Source `ShadowFrame::GetVReg`: reinterpret the raw 4-byte slot. -/
def GetVReg (f : ShadowFrameSt) (i : Nat) : Nat := f.vregs i

/-- Source `ShadowFrame::GetVRegLong`: combines two consecutive raw slots
at 4-byte alignment (low half in slot `i`, high half in slot `i + 1`). -/
def GetVRegLong (f : ShadowFrameSt) (i : Nat) : Nat :=
  f.vregs i + u32Mod * f.vregs (i + 1)

/-- Source `ShadowFrame::GetVRegReference` (reference-array layout branch
versus raw-slot reinterpretation branch, selected by `HasReferenceArray`).
The read-barrier assertion and verification flags are side-effect-free
checks and are not modelled. -/
def GetVRegReference (f : ShadowFrameSt) (i : Nat) : Nat :=
  if f.HasReferenceArray then f.refs i else f.vregs i

/-- Source `ShadowFrame::SetVReg`: writes the raw bits and, when
`kMovingCollector` holds and the frame has a reference array, clears
shadow slot `i`. -/
def SetVReg (kMovingCollector : Bool) (f : ShadowFrameSt) (i v : Nat) :
    ShadowFrameSt :=
  let f1 := { f with vregs := updFn f.vregs i (v % u32Mod) }
  if kMovingCollector && f1.HasReferenceArray then
    { f1 with refs := updFn f1.refs i 0 }
  else f1

/-- Source `ShadowFrame::SetVRegFloat`: same raw write with the float's bit
pattern, clearing shadow slot `i` under a moving collector. -/
def SetVRegFloat (kMovingCollector : Bool) (f : ShadowFrameSt) (i v : Nat) :
    ShadowFrameSt :=
  let f1 := { f with vregs := updFn f.vregs i (v % u32Mod) }
  if kMovingCollector && f1.HasReferenceArray then
    { f1 with refs := updFn f1.refs i 0 }
  else f1

/-- Source `ShadowFrame::SetVRegLong`: stores the 64-bit pattern across raw
slots `i` (low half) and `i + 1` (high half) and, under a moving collector,
clears shadow slots `i` and `i + 1`. -/
def SetVRegLong (kMovingCollector : Bool) (f : ShadowFrameSt) (i v : Nat) :
    ShadowFrameSt :=
  let f1 := { f with
    vregs := updFn (updFn f.vregs i (v % u32Mod)) (i + 1) (v / u32Mod % u32Mod) }
  if kMovingCollector && f1.HasReferenceArray then
    { f1 with refs := updFn (updFn f1.refs i 0) (i + 1) 0 }
  else f1

/-- Source `ShadowFrame::SetVRegDouble`: same layout as `SetVRegLong` with
the double's bit pattern. -/
def SetVRegDouble (kMovingCollector : Bool) (f : ShadowFrameSt) (i v : Nat) :
    ShadowFrameSt :=
  let f1 := { f with
    vregs := updFn (updFn f.vregs i (v % u32Mod)) (i + 1) (v / u32Mod % u32Mod) }
  if kMovingCollector && f1.HasReferenceArray then
    { f1 with refs := updFn (updFn f1.refs i 0) (i + 1) 0 }
  else f1

/-- Source `ShadowFrame::SetVRegReference`: assigns the (32-bit compressed)
address into the raw slot and, since the frame has a reference array, into
shadow slot `i` as well. -/
def SetVRegReference (f : ShadowFrameSt) (i v : Nat) : ShadowFrameSt :=
  let f1 := { f with vregs := updFn f.vregs i (v % u32Mod) }
  if f1.HasReferenceArray then
    { f1 with refs := updFn f1.refs i (v % u32Mod) }
  else f1

/-- Source `ShadowFrame::ComputeSize`: `sizeof(ShadowFrame)` plus
`num_vregs` 4-byte raw slots plus `num_vregs` shadow slots. The header
size and the shadow element size are external to the provided sources and
are parameters; the spec fixes the shadow element size to the pointer
width. -/
def ComputeSize (headerSize refSize numVRegs : Nat) : Nat :=
  headerSize + 4 * numVRegs + refSize * numVRegs

/-- Bytes consumed by the in-place constructor (`CreateShadowFrameImpl` and
the private constructor): the header fields occupy `[0, headerSize)` and
the `memset` zeroes `num_vregs * (4 + refSize)` trailing bytes. -/
def constructBytesConsumed (headerSize refSize numVRegs : Nat) : Nat :=
  headerSize + numVRegs * (4 + refSize)

/-- Source `ShadowFrame::CreateShadowFrameImpl` followed by the private
constructor: zero-initializes both trailing arrays, nulls the pointer-form
dex pc, and zeroes the hotness counters. -/
def CreateShadowFrameImpl (numVRegs : Nat) (link : Option Nat) (method : Nat)
    (dexPc : Nat) : ShadowFrameSt :=
  { link := link
    method := method
    resultRegister := none
    dexPcPtr := none
    codeItemInsns := 0
    lockCountData := ⟨[]⟩
    numberOfVRegs := numVRegs
    dexPc := dexPc
    cachedHotnessCountdown := 0
    hotnessCountdown := 0
    vregs := fun _ => 0
    refs := fun _ => 0 }

/-- Source `ShadowFrame::Contains`: with a reference array the address is
tested against `[&References()[0], &References()[N-1]]`, otherwise against
`[&vregs_[0], &vregs_[N-1]]`. `vregsBase` is the address of `vregs_[0]`
and `refSize` the byte size of a shadow element (external to the provided
sources; the spec fixes it to the pointer width). -/
def Contains (f : ShadowFrameSt) (vregsBase refSize addr : Nat) : Bool :=
  if f.HasReferenceArray then
    decide (vregsBase + 4 * f.numberOfVRegs ≤ addr) &&
      decide (addr ≤ vregsBase + 4 * f.numberOfVRegs + refSize * (f.numberOfVRegs - 1))
  else
    decide (vregsBase ≤ addr) &&
      decide (addr ≤ vregsBase + 4 * (f.numberOfVRegs - 1))

/-- Membership of an address in the shadow-reference region
`[&References()[0], &References()[N-1]]`, stated on its own for comparison
with `Contains`. -/
def inShadowRefRegion (f : ShadowFrameSt) (vregsBase refSize addr : Nat) : Bool :=
  decide (vregsBase + 4 * f.numberOfVRegs ≤ addr) &&
    decide (addr ≤ vregsBase + 4 * f.numberOfVRegs + refSize * (f.numberOfVRegs - 1))

end ShadowFrameSt

/-- One virtual-register write, used to quantify over write sequences. -/
inductive WriteOp where
  | setVReg (i v : Nat)
  | setVRegFloat (i v : Nat)
  | setVRegLong (i v : Nat)
  | setVRegDouble (i v : Nat)
  | setVRegReference (i v : Nat)
deriving DecidableEq

/-- Applies one register write to a frame under the given collector
configuration. -/
def applyWrite (kMovingCollector : Bool) (f : ShadowFrameSt) :
    WriteOp → ShadowFrameSt
  | .setVReg i v => f.SetVReg kMovingCollector i v
  | .setVRegFloat i v => f.SetVRegFloat kMovingCollector i v
  | .setVRegLong i v => f.SetVRegLong kMovingCollector i v
  | .setVRegDouble i v => f.SetVRegDouble kMovingCollector i v
  | .setVRegReference i v => f.SetVRegReference i v

/-- Applies a sequence of register writes in order. -/
def applyWrites (kMovingCollector : Bool) (ops : List WriteOp)
    (f : ShadowFrameSt) : ShadowFrameSt :=
  ops.foldl (applyWrite kMovingCollector) f

/-- Raw/shadow agreement invariant: a non-null shadow slot holds the same
bit pattern as the raw slot below it. -/
def refsRawAgree (f : ShadowFrameSt) : Prop :=
  ∀ i, f.refs i ≠ 0 → f.vregs i = f.refs i

/-- Source `StackVisitor::GetFrameHeight`: `GetNumFrames() - cur_depth_ - 1`. -/
def GetFrameHeight (numFrames curDepth : Nat) : Nat :=
  numFrames - curDepth - 1

/-- Source `StackVisitor::GetFrameId`: `GetFrameHeight() + 1`. -/
def GetFrameId (numFrames curDepth : Nat) : Nat :=
  GetFrameHeight numFrames curDepth + 1

/-- Modelled from the spec: `WalkStack` (whose loop body lives in
`stack.cc`, not among the provided sources) visits logical frames
newest-to-oldest, the cursor depth `cur_depth_` taking the values
`0, 1, …, numFrames - 1` in visit order. -/
def walkDepths (numFrames : Nat) : List Nat := List.range numFrames

/-- Frame heights reported over a full walk, in visit order. -/
def walkHeights (numFrames : Nat) : List Nat :=
  (walkDepths numFrames).map (GetFrameHeight numFrames)

/-- Frame ids reported over a full walk, in visit order. -/
def walkIds (numFrames : Nat) : List Nat :=
  (walkDepths numFrames).map (GetFrameId numFrames)

end ArtStack

namespace DexDiag

/-- Page size used by the diagnostic tool (`kPageSize`). -/
def kPageSize : Nat := 4096

/-- Section type tag of the container header (`DexFile::kDexTypeHeaderItem`). -/
def kDexTypeHeaderItem : Nat := 0

/-- One container section as used by the tool: a type tag, a byte size and
a byte offset (`dex_ir::DexFileSection` fields consumed by `dexdiag.cc`). -/
structure DexFileSection where
  type : Nat
  size : Nat
  offset : Nat
deriving DecidableEq

/-- Source `FindSectionTypeForPage`: scans the section list in order,
skipping empty sections, and returns the first whose start page is at or
below `page`; the header type when none qualifies. The caller passes the
list sorted by descending offset. -/
def FindSectionTypeForPage (page : Nat) : List DexFileSection → Nat
  | [] => kDexTypeHeaderItem
  | s :: rest =>
    if s.size = 0 then FindSectionTypeForPage page rest
    else if s.offset / kPageSize ≤ page then s.type
    else FindSectionTypeForPage page rest

/-- Source `RoundUp(x, n)` for a positive alignment `n`. -/
def RoundUp (x n : Nat) : Nat := (x + n - 1) / n * n

/-- Source `ProcessOneDexMapping` start page:
`(dex_file_start - vdex_start) / kPageSize`. -/
def dexUnitStartPage (vdexStart dexFileStart : Nat) : Nat :=
  (dexFileStart - vdexStart) / kPageSize

/-- Source `ProcessOneDexMapping` end page:
`RoundUp(start + dex_file_size, kPageSize) / kPageSize`. -/
def dexUnitEndPage (startPage dexFileSize : Nat) : Nat :=
  RoundUp (startPage + dexFileSize) kPageSize / kPageSize

/-- Bumps the per-type page counter (`PageCount::Increment`). -/
def pcIncrement (counts : Nat → Nat) (t : Nat) : Nat → Nat :=
  fun u => if u = t then counts u + 1 else counts u

/-- Source `ProcessPageMap`: for each page in `[start, stop)` that the
residency table marks present, attribute it with `FindSectionTypeForPage`
and bump that section's counter. `pagemap p` models
`PM_PAGEMAP_PRESENT(pagemap[p])`. -/
def ProcessPageMap (pagemap : Nat → Bool) (start stop : Nat)
    (sections : List DexFileSection) : Nat → Nat :=
  (List.range' start (stop - start)).foldl
    (fun counts page =>
      if pagemap page then
        pcIncrement counts (FindSectionTypeForPage page sections)
      else counts)
    (fun _ => 0)

/-- Source `DisplayDexStatistics`: returns nothing when the mapped page
count is zero; otherwise the per-section resident-page counts printed row
by row (the loop runs from the last section back to the first) paired with
the printed grand total, which the loop accumulates as it prints. -/
def DisplayDexStatistics (start stop : Nat) (resident : Nat → Nat)
    (sections : List DexFileSection) : Option (List Nat × Nat) :=
  if stop - start = 0 then none
  else
    some (sections.reverse.map (fun s => resident s.type),
          sections.reverse.foldl (fun acc s => acc + resident s.type) 0)

/-- Outcome flags of one memory mapping as seen by
`DisplayMappingIfFromVdexFile`: whether its name matches a container
(vdex) suffix, whether `VdexFile::Open` succeeds, whether
`OpenAllDexFiles` succeeds, and whether `pm_map_pagemap` succeeds. -/
structure MapOutcome where
  isVdexMapping : Bool
  vdexOpenOk : Bool
  dexFilesOpenOk : Bool
  pagemapOk : Bool
deriving DecidableEq

/-- Source `DisplayMappingIfFromVdexFile`: non-container mappings are
skipped successfully; failure to open the container or its page map
returns `false`; a `OpenAllDexFiles` failure only prints an error and
continues. -/
def DisplayMappingIfFromVdexFile (m : MapOutcome) : Bool :=
  if !m.isVdexMapping then true
  else if !m.vdexOpenOk then false
  else if !m.pagemapOk then false
  else true

/-- Command-line and process environment of one `DexDiagMain` run:
`args` is `argv[1..]` (the last entry being the pid string), and the
flags model the success of pid validation (`strtol` + `kill(pid, 0)`),
`pm_kernel_create`, `pm_process_create` and `pm_process_maps`. -/
structure DiagEnv where
  args : List String
  pidValid : Bool
  kernelOk : Bool
  processOk : Bool
  mapsListOk : Bool
  maps : List MapOutcome

/-- Recognized option flags of the tool. -/
def isFlag (s : String) : Bool :=
  s == "-k" || s == "-s" || s == "-v"

/-- Source `DexDiagMain`: usage error when no argument or an unknown flag
is given, then pid validation, kernel/process/maps interface creation,
then each mapping is processed, the first failing mapping ending the run
with `EXIT_FAILURE`; `0` on success, `EXIT_FAILURE = 1` otherwise. -/
def DexDiagMain (env : DiagEnv) : Nat :=
  if env.args.length < 1 then 1
  else if env.args.dropLast.any (fun a => !isFlag a) then 1
  else if !env.pidValid then 1
  else if !env.kernelOk then 1
  else if !env.processOk then 1
  else if !env.mapsListOk then 1
  else if env.maps.any (fun m => !DisplayMappingIfFromVdexFile m) then 1
  else 0

end DexDiag

namespace ArtStack

/-- Scenario B state after locking object `x` twice and unlocking once:
the resulting thread state and ledger. -/
def scenarioBAfterOneUnlock (x : Nat) : ThreadState × LockCountData :=
  (LockCountData.AddMonitor ⟨false⟩
    (LockCountData.AddMonitor ⟨false⟩ ⟨[]⟩ x) x).RemoveMonitorOrThrow x

/-- Scenario B state after the second unlock of `x`. -/
def scenarioBAfterTwoUnlocks (x : Nat) : ThreadState × LockCountData :=
  (scenarioBAfterOneUnlock x).2.RemoveMonitorOrThrow x

end ArtStack

open ArtStack DexDiag

/-- Claim C1: under a moving-collector configuration every narrow
non-reference write clears shadow slot `i`, every wide write clears shadow
slots `i` and `i + 1`, and in a 4-register frame `SetVRegReference(0, X)`
followed by `SetVReg(0, 42)` makes `GetVRegReference(0)` report null. -/
theorem c1_moving_writes_clear_shadow_slots :
    ∀ (f : ShadowFrameSt) (i v : Nat),
      (f.SetVReg true i v).refs i = 0 ∧
      (f.SetVRegFloat true i v).refs i = 0 ∧
      (f.SetVRegLong true i v).refs i = 0 ∧
      (f.SetVRegLong true i v).refs (i + 1) = 0 ∧
      (f.SetVRegDouble true i v).refs i = 0 ∧
      (f.SetVRegDouble true i v).refs (i + 1) = 0 ∧
      (((ShadowFrameSt.CreateShadowFrameImpl 4 none 0 0).SetVRegReference 0 v).SetVReg
          true 0 42).GetVRegReference 0 = 0 := by
  intro f i v
  refine ⟨?_, ?_, ?_, ?_, ?_, ?_, ?_⟩ <;>
    simp [ShadowFrameSt.SetVReg, ShadowFrameSt.SetVRegFloat, ShadowFrameSt.SetVRegLong,
      ShadowFrameSt.SetVRegDouble, ShadowFrameSt.SetVRegReference,
      ShadowFrameSt.GetVRegReference, ShadowFrameSt.HasReferenceArray, updFn]

/-- Claim C3: `ComputeSize(N)` is the fixed header size plus `N * 4` raw
bytes plus `N * pointerWidth` shadow bytes, and coincides with the exact
number of bytes the in-place construction touches, so a buffer of exactly
that size is never overrun. -/
theorem c3_compute_size_matches_construction :
    ∀ headerSize ptrWidth n : Nat,
      ShadowFrameSt.ComputeSize headerSize ptrWidth n =
          headerSize + n * 4 + n * ptrWidth ∧
      ShadowFrameSt.ComputeSize headerSize ptrWidth n =
        ShadowFrameSt.constructBytesConsumed headerSize ptrWidth n := by
  intro h p n
  constructor <;>
    simp [ShadowFrameSt.ComputeSize, ShadowFrameSt.constructBytesConsumed] <;> ring

/-- Claim C6: `GetDexPC` returns the stored absolute index when the
raw-pointer form is null and otherwise the pointer's distance from the
start of the instruction stream; `SetDexPC` stores the index and clears
the pointer form. -/
theorem c6_dex_pc_representations :
    ∀ (f : ShadowFrameSt) (pc : Nat),
      (f.dexPcPtr = none → f.GetDexPC = f.dexPc) ∧
      (∀ p, f.dexPcPtr = some p → f.GetDexPC = p - f.codeItemInsns) ∧
      (f.SetDexPC pc).dexPc = pc ∧
      (f.SetDexPC pc).dexPcPtr = none ∧
      (f.SetDexPC pc).GetDexPC = pc := by
  intro f pc
  refine ⟨?_, ?_, rfl, rfl, rfl⟩
  · intro h; simp [ShadowFrameSt.GetDexPC, h]
  · intro p h; simp [ShadowFrameSt.GetDexPC, h]

/-- Witness for claim C6: a freshly constructed frame (pointer form unset)
returns the stored index, and a frame whose pointer form is set at 7 over
an instruction stream starting at 3 returns index 4. -/
theorem c6_dex_pc_representations_witness :
    (ShadowFrameSt.CreateShadowFrameImpl 2 none 0 9).GetDexPC =
        (ShadowFrameSt.CreateShadowFrameImpl 2 none 0 9).dexPc ∧
    ({ ShadowFrameSt.CreateShadowFrameImpl 2 none 0 9 with
        dexPcPtr := some 7, codeItemInsns := 3 } : ShadowFrameSt).GetDexPC = 7 - 3 :=
  ⟨(c6_dex_pc_representations _ 0).1 rfl,
   (c6_dex_pc_representations _ 0).2.1 7 rfl⟩

/-- Claim C10: every frame reports `HasReferenceArray()` true, so
`GetVRegReference` always reads the shadow slot and `Contains` always
tests the shadow-reference region; the no-reference-array paths are
unreachable. -/
theorem c10_reference_array_always_used :
    ∀ (f : ShadowFrameSt) (i vregsBase refSize addr : Nat),
      f.HasReferenceArray = true ∧
      f.GetVRegReference i = f.refs i ∧
      f.Contains vregsBase refSize addr = f.inShadowRefRegion vregsBase refSize addr := by
  intro f i b r a
  exact ⟨rfl, rfl, rfl⟩

/-- Claim C5: `CheckAllMonitorsReleasedOrThrow` raises IllegalMonitorState
(returns `false`) exactly when the ledger is non-empty; locking `x` twice
and unlocking once still raises, and a second unlock leaves no raise. -/
theorem c5_check_monitors_released :
    (∀ (t : ThreadState) (d : LockCountData),
        (d.CheckAllMonitorsReleasedOrThrow t).1 = false ↔ d.monitors ≠ []) ∧
    ∀ x : Nat,
      ((scenarioBAfterOneUnlock x).2.CheckAllMonitorsReleasedOrThrow
          (scenarioBAfterOneUnlock x).1).1 = false ∧
      ((scenarioBAfterTwoUnlocks x).2.CheckAllMonitorsReleasedOrThrow
          (scenarioBAfterTwoUnlocks x).1).1 = true := by
  constructor
  · intro t d
    cases h : d.monitors <;>
      simp [LockCountData.CheckAllMonitorsReleasedOrThrow, h]
  · intro x
    simp [scenarioBAfterOneUnlock, scenarioBAfterTwoUnlocks,
      LockCountData.AddMonitor, LockCountData.RemoveMonitorOrThrow,
      LockCountData.CheckAllMonitorsReleasedOrThrow, removeMostRecent]

/-- Helper: one register write under the moving-collector configuration
preserves raw/shadow agreement. -/
theorem applyWrite_preserves_refsRawAgree (f : ShadowFrameSt) (op : WriteOp)
    (h : refsRawAgree f) : refsRawAgree (applyWrite true f op) := by
  cases op with
  | setVReg i v =>
      intro j hj
      by_cases hij : j = i <;>
        simp [applyWrite, ShadowFrameSt.SetVReg, ShadowFrameSt.HasReferenceArray,
          updFn, hij] at hj ⊢
      exact h j hj
  | setVRegFloat i v =>
      intro j hj
      by_cases hij : j = i <;>
        simp [applyWrite, ShadowFrameSt.SetVRegFloat, ShadowFrameSt.HasReferenceArray,
          updFn, hij] at hj ⊢
      exact h j hj
  | setVRegLong i v =>
      intro j hj
      by_cases h1 : j = i + 1
      · simp [applyWrite, ShadowFrameSt.SetVRegLong, ShadowFrameSt.HasReferenceArray,
          updFn, h1] at hj
      · by_cases h2 : j = i
        · simp [applyWrite, ShadowFrameSt.SetVRegLong, ShadowFrameSt.HasReferenceArray,
            updFn, h1, h2] at hj
        · simp [applyWrite, ShadowFrameSt.SetVRegLong, ShadowFrameSt.HasReferenceArray,
            updFn, h1, h2] at hj ⊢
          exact h j hj
  | setVRegDouble i v =>
      intro j hj
      by_cases h1 : j = i + 1
      · simp [applyWrite, ShadowFrameSt.SetVRegDouble, ShadowFrameSt.HasReferenceArray,
          updFn, h1] at hj
      · by_cases h2 : j = i
        · simp [applyWrite, ShadowFrameSt.SetVRegDouble, ShadowFrameSt.HasReferenceArray,
            updFn, h1, h2] at hj
        · simp [applyWrite, ShadowFrameSt.SetVRegDouble, ShadowFrameSt.HasReferenceArray,
            updFn, h1, h2] at hj ⊢
          exact h j hj
  | setVRegReference i v =>
      intro j hj
      by_cases hij : j = i
      · simp [applyWrite, ShadowFrameSt.SetVRegReference, ShadowFrameSt.HasReferenceArray,
          updFn, hij]
      · simp [applyWrite, ShadowFrameSt.SetVRegReference, ShadowFrameSt.HasReferenceArray,
          updFn, hij] at hj ⊢
        exact h j hj

/-- Counterexample to claim C2 as stated: outside the moving-collector
configuration a narrow overwrite does not clear the shadow slot, so after
`SetVRegReference(0, 5)` then `SetVReg(0, 42)` shadow slot 0 is non-null
while raw slot 0 holds a different bit pattern. -/
theorem c2_raw_shadow_sync_counterexample :
    ¬ refsRawAgree (applyWrites false
        [WriteOp.setVRegReference 0 5, WriteOp.setVReg 0 42]
        (ShadowFrameSt.CreateShadowFrameImpl 4 none 0 0)) :=
  fun h => absurd (h 0 (by decide)) (by decide)

/-- Claim C2 (amended): under the moving-collector configuration, every
sequence of register writes preserves the invariant that a non-null shadow
slot agrees with the raw slot's bit pattern, and `SetVRegReference(i, v)`
establishes it by writing the address into both the raw and shadow slot. -/
theorem c2_raw_shadow_sync_moving :
    (∀ (ops : List WriteOp) (f : ShadowFrameSt),
        refsRawAgree f → refsRawAgree (applyWrites true ops f)) ∧
    ∀ (f : ShadowFrameSt) (i v : Nat),
      (f.SetVRegReference i v).vregs i = v % u32Mod ∧
      (f.SetVRegReference i v).refs i = v % u32Mod := by
  constructor
  · intro ops
    induction ops with
    | nil => intro f h; exact h
    | cons op rest ih =>
        intro f h
        exact ih _ (applyWrite_preserves_refsRawAgree f op h)
  · intro f i v
    constructor <;>
      simp [ShadowFrameSt.SetVRegReference, ShadowFrameSt.HasReferenceArray, updFn]

/-- Witness for the amended claim C2: a concrete write sequence on a fresh
4-register frame satisfies the raw/shadow agreement invariant. -/
theorem c2_raw_shadow_sync_moving_witness :
    refsRawAgree (applyWrites true
        [WriteOp.setVRegReference 0 5, WriteOp.setVReg 1 7]
        (ShadowFrameSt.CreateShadowFrameImpl 4 none 0 0)) :=
  c2_raw_shadow_sync_moving.1 _ _ (fun _ h => absurd rfl h)

/-- Counterexample to claim C4 as stated: in a two-frame walk the reported
frame ids in visit order are `[2, 1]`, which neither starts at 1 nor
increases. -/
theorem c4_frame_id_counterexample :
    walkIds 2 = [2, 1] ∧
    ¬ List.Chain' (fun a b => a < b) (walkIds 2) ∧
    (walkIds 2).head? ≠ some 1 := by
  refine ⟨rfl, ?_, by decide⟩
  intro h
  have h2 : walkIds 2 = [2, 1] := rfl
  rw [h2] at h
  simp [List.chain'_cons] at h

/-- Claim C4 (amended): over a full walk the reported frame heights
strictly decrease from `numFrames - 1` at the newest frame, and the
reported frame ids also strictly decrease in visit order, reaching 1 at
the oldest frame — equivalently, frame ids increase from 1 when counted
from the oldest frame. -/
theorem c4_walk_monotonic :
    ∀ n : Nat,
      List.Chain' (fun a b => a > b) (walkHeights n) ∧
      List.Chain' (fun a b => a > b) (walkIds n) ∧
      (0 < n → GetFrameHeight n 0 = n - 1 ∧ GetFrameId n (n - 1) = 1) := by
  intro n
  refine ⟨?_, ?_, ?_⟩
  · rw [walkHeights, walkDepths, List.chain'_map]
    cases n with
    | zero => simp
    | succ k =>
        rw [List.chain'_range_succ]
        intro m hm
        simp only [GetFrameHeight]
        omega
  · rw [walkIds, walkDepths, List.chain'_map]
    cases n with
    | zero => simp
    | succ k =>
        rw [List.chain'_range_succ]
        intro m hm
        simp only [GetFrameId, GetFrameHeight]
        omega
  · intro hn
    constructor
    · simp [GetFrameHeight]
    · simp only [GetFrameId, GetFrameHeight]
      omega

/-- Witness for the amended claim C4 at a three-frame walk. -/
theorem c4_walk_monotonic_witness :
    0 < 3 ∧ (GetFrameHeight 3 0 = 3 - 1 ∧ GetFrameId 3 (3 - 1) = 1) :=
  ⟨by decide, (c4_walk_monotonic 3).2.2 (by decide)⟩

/-- Helper: on a section list sorted by descending offset,
`FindSectionTypeForPage` either returns the type of a highest-offset
non-empty section whose start page is at or below the page, or the header
type when no such section exists. -/
theorem findSectionTypeForPage_attribution (page : Nat) :
    ∀ sections : List DexFileSection,
      List.Pairwise (fun a b => b.offset ≤ a.offset) sections →
      ((∃ s, s ∈ sections ∧ s.size ≠ 0 ∧ s.offset / kPageSize ≤ page ∧
          FindSectionTypeForPage page sections = s.type ∧
          ∀ s2, s2 ∈ sections → s2.size ≠ 0 → s2.offset / kPageSize ≤ page →
            s2.offset ≤ s.offset) ∨
        ((∀ s, s ∈ sections → s.size = 0 ∨ page < s.offset / kPageSize) ∧
          FindSectionTypeForPage page sections = kDexTypeHeaderItem)) := by
  intro sections
  induction sections with
  | nil =>
      intro _
      right
      exact ⟨fun s hs => absurd hs (List.not_mem_nil s), rfl⟩
  | cons s rest ih =>
      intro hp
      rcases List.pairwise_cons.mp hp with ⟨hle, hrest⟩
      by_cases hz : s.size = 0
      · have hfind : FindSectionTypeForPage page (s :: rest) =
            FindSectionTypeForPage page rest := by
          simp [FindSectionTypeForPage, hz]
        rcases ih hrest with ⟨s1, hmem, hs1z, hs1le, hs1eq, hs1max⟩ | ⟨hnone, heq⟩
        · left
          refine ⟨s1, List.mem_cons_of_mem _ hmem, hs1z, hs1le, hfind.trans hs1eq, ?_⟩
          intro s2 hs2 hs2z hs2le
          rcases List.mem_cons.mp hs2 with h2 | h2
          · exact absurd (by rw [h2]; exact hz) hs2z
          · exact hs1max s2 h2 hs2z hs2le
        · right
          refine ⟨?_, hfind.trans heq⟩
          intro s2 hs2
          rcases List.mem_cons.mp hs2 with h2 | h2
          · exact Or.inl (by rw [h2]; exact hz)
          · exact hnone s2 h2
      · by_cases hpage : s.offset / kPageSize ≤ page
        · left
          have hfind : FindSectionTypeForPage page (s :: rest) = s.type := by
            simp [FindSectionTypeForPage, hz, hpage]
          refine ⟨s, List.mem_cons_self s rest, hz, hpage, hfind, ?_⟩
          intro s2 hs2 _ _
          rcases List.mem_cons.mp hs2 with h2 | h2
          · rw [h2]
          · exact hle s2 h2
        · have hfind : FindSectionTypeForPage page (s :: rest) =
              FindSectionTypeForPage page rest := by
            simp [FindSectionTypeForPage, hz, hpage]
          rcases ih hrest with ⟨s1, hmem, hs1z, hs1le, hs1eq, hs1max⟩ | ⟨hnone, heq⟩
          · left
            refine ⟨s1, List.mem_cons_of_mem _ hmem, hs1z, hs1le, hfind.trans hs1eq, ?_⟩
            intro s2 hs2 hs2z hs2le
            rcases List.mem_cons.mp hs2 with h2 | h2
            · exact absurd (by rw [h2] at hs2le; exact hs2le) hpage
            · exact hs1max s2 h2 hs2z hs2le
          · right
            refine ⟨?_, hfind.trans heq⟩
            intro s2 hs2
            rcases List.mem_cons.mp hs2 with h2 | h2
            · exact Or.inr (by rw [h2]; exact Nat.lt_of_not_le hpage)
            · exact hnone s2 h2

/-- Claim C7: for a descending-sorted section list, each page is
attributed to the highest-offset non-empty section whose start page is at
or below it (header when none exists), and a unit's page range runs from
its start page `(dexFileStart - vdexStart) / kPageSize` to
`RoundUp(start + size, kPageSize) / kPageSize`. -/
theorem c7_page_attribution_and_range (page : Nat)
    (sections : List DexFileSection)
    (hsorted : List.Pairwise (fun a b => b.offset ≤ a.offset) sections) :
    ((∃ s, s ∈ sections ∧ s.size ≠ 0 ∧ s.offset / kPageSize ≤ page ∧
        FindSectionTypeForPage page sections = s.type ∧
        ∀ s2, s2 ∈ sections → s2.size ≠ 0 → s2.offset / kPageSize ≤ page →
          s2.offset ≤ s.offset) ∨
      ((∀ s, s ∈ sections → s.size = 0 ∨ page < s.offset / kPageSize) ∧
        FindSectionTypeForPage page sections = kDexTypeHeaderItem)) ∧
    ∀ vdexStart dexFileStart dexFileSize : Nat,
      dexUnitStartPage vdexStart dexFileStart =
          (dexFileStart - vdexStart) / kPageSize ∧
      dexUnitEndPage (dexUnitStartPage vdexStart dexFileStart) dexFileSize =
        RoundUp (dexUnitStartPage vdexStart dexFileStart + dexFileSize)
            kPageSize / kPageSize := by
  refine ⟨findSectionTypeForPage_attribution page sections hsorted, ?_⟩
  intro v d sz
  exact ⟨rfl, rfl⟩

/-- Witness for claim C7 at page 5 over three concrete sections with
descending offsets. -/
theorem c7_page_attribution_and_range_witness :
    List.Pairwise (fun a b => b.offset ≤ a.offset)
      ([⟨2, 100, 16384⟩, ⟨1, 100, 8192⟩, ⟨0, 112, 0⟩] : List DexFileSection) ∧
    (((∃ s, s ∈ ([⟨2, 100, 16384⟩, ⟨1, 100, 8192⟩, ⟨0, 112, 0⟩] : List DexFileSection) ∧
        s.size ≠ 0 ∧ s.offset / kPageSize ≤ 5 ∧
        FindSectionTypeForPage 5
            ([⟨2, 100, 16384⟩, ⟨1, 100, 8192⟩, ⟨0, 112, 0⟩] : List DexFileSection) = s.type ∧
        ∀ s2, s2 ∈ ([⟨2, 100, 16384⟩, ⟨1, 100, 8192⟩, ⟨0, 112, 0⟩] : List DexFileSection) →
          s2.size ≠ 0 → s2.offset / kPageSize ≤ 5 → s2.offset ≤ s.offset) ∨
      ((∀ s, s ∈ ([⟨2, 100, 16384⟩, ⟨1, 100, 8192⟩, ⟨0, 112, 0⟩] : List DexFileSection) →
          s.size = 0 ∨ 5 < s.offset / kPageSize) ∧
        FindSectionTypeForPage 5
            ([⟨2, 100, 16384⟩, ⟨1, 100, 8192⟩, ⟨0, 112, 0⟩] : List DexFileSection) =
          kDexTypeHeaderItem)) ∧
    ∀ vdexStart dexFileStart dexFileSize : Nat,
      dexUnitStartPage vdexStart dexFileStart =
          (dexFileStart - vdexStart) / kPageSize ∧
      dexUnitEndPage (dexUnitStartPage vdexStart dexFileStart) dexFileSize =
        RoundUp (dexUnitStartPage vdexStart dexFileStart + dexFileSize)
            kPageSize / kPageSize) :=
  ⟨by decide,
   c7_page_attribution_and_range 5
     ([⟨2, 100, 16384⟩, ⟨1, 100, 8192⟩, ⟨0, 112, 0⟩] : List DexFileSection)
     (by decide)⟩

/-- Helper: left fold of addition over a section list equals the
accumulator plus the sum of the mapped values. -/
theorem foldl_add_eq_sum_map (g : DexFileSection → Nat) :
    ∀ (l : List DexFileSection) (a : Nat),
      l.foldl (fun acc s => acc + g s) a = a + (l.map g).sum := by
  intro l
  induction l with
  | nil => intro a; simp
  | cons s rest ih =>
      intro a
      simp only [List.foldl_cons, List.map_cons, List.sum_cons, ih]
      omega

/-- Claim C8: whenever the statistics display produces output, the printed
per-section resident-page counts sum exactly to the printed grand total. -/
theorem c8_rows_sum_to_grand_total (start stop : Nat) (resident : Nat → Nat)
    (sections : List DexFileSection) (rows : List Nat) (total : Nat)
    (h : DisplayDexStatistics start stop resident sections = some (rows, total)) :
    total = rows.sum := by
  unfold DisplayDexStatistics at h
  by_cases hz : stop - start = 0
  · simp [hz] at h
  · simp only [hz, if_false, Option.some.injEq, Prod.mk.injEq] at h
    rcases h with ⟨hrows, htotal⟩
    rw [← htotal, ← hrows, foldl_add_eq_sum_map]
    simp

/-- Witness for claim C8, scenario C: three sections and a residency table
marking pages 0, 2 and 5 resident; each row counts one page and the grand
total is 3. -/
theorem c8_rows_sum_to_grand_total_witness :
    DisplayDexStatistics 0 8
        (ProcessPageMap (fun p => p == 0 || p == 2 || p == 5) 0 8
          ([⟨2, 100, 16384⟩, ⟨1, 100, 8192⟩, ⟨0, 112, 0⟩] : List DexFileSection))
        ([⟨2, 100, 16384⟩, ⟨1, 100, 8192⟩, ⟨0, 112, 0⟩] : List DexFileSection) =
      some ([1, 1, 1], 3) ∧
    (3 : Nat) = [1, 1, 1].sum :=
  ⟨by decide,
   c8_rows_sum_to_grand_total 0 8
     (ProcessPageMap (fun p => p == 0 || p == 2 || p == 5) 0 8
       ([⟨2, 100, 16384⟩, ⟨1, 100, 8192⟩, ⟨0, 112, 0⟩] : List DexFileSection))
     ([⟨2, 100, 16384⟩, ⟨1, 100, 8192⟩, ⟨0, 112, 0⟩] : List DexFileSection)
     [1, 1, 1] 3 (by decide)⟩

/-- Claim C9: the diagnostic tool exits 0 exactly when the arguments are
present and valid, the pid is valid, the kernel, process and maps
interfaces can be created, and every mapping is processed successfully;
in every other case it exits 1. -/
theorem c9_exit_codes (env : DiagEnv) :
    (DexDiagMain env = 0 ∨ DexDiagMain env = 1) ∧
    (DexDiagMain env = 0 ↔
      (1 ≤ env.args.length ∧
       (∀ a ∈ env.args.dropLast, isFlag a = true) ∧
       env.pidValid = true ∧ env.kernelOk = true ∧
       env.processOk = true ∧ env.mapsListOk = true ∧
       ∀ m ∈ env.maps, DisplayMappingIfFromVdexFile m = true)) := by
  obtain ⟨args, pidValid, kernelOk, processOk, mapsListOk, maps⟩ := env
  simp only [DexDiagMain]
  split_ifs with h1 h2 h3 h4 h5 h6 h7
  · refine ⟨Or.inr rfl, fun h => absurd h (by decide), fun hR => ?_⟩
    exact absurd hR.1 (by omega)
  · refine ⟨Or.inr rfl, fun h => absurd h (by decide), fun hR => ?_⟩
    rcases List.any_eq_true.mp h2 with ⟨a, ha, hfa⟩
    have hisf := hR.2.1 a ha
    simp [hisf] at hfa
  · refine ⟨Or.inr rfl, fun h => absurd h (by decide), fun hR => ?_⟩
    rw [hR.2.2.1] at h3
    simp at h3
  · refine ⟨Or.inr rfl, fun h => absurd h (by decide), fun hR => ?_⟩
    rw [hR.2.2.2.1] at h4
    simp at h4
  · refine ⟨Or.inr rfl, fun h => absurd h (by decide), fun hR => ?_⟩
    rw [hR.2.2.2.2.1] at h5
    simp at h5
  · refine ⟨Or.inr rfl, fun h => absurd h (by decide), fun hR => ?_⟩
    rw [hR.2.2.2.2.2.1] at h6
    simp at h6
  · refine ⟨Or.inr rfl, fun h => absurd h (by decide), fun hR => ?_⟩
    rcases List.any_eq_true.mp h7 with ⟨m, hm, hfm⟩
    have hdisp := hR.2.2.2.2.2.2 m hm
    simp [hdisp] at hfm
  · refine ⟨Or.inl rfl, ?_⟩
    refine iff_of_true rfl ⟨by omega, ?_, ?_, ?_, ?_, ?_, ?_⟩
    · intro a ha
      by_contra hfa
      exact h2 (List.any_eq_true.mpr
        ⟨a, ha, by simp only [Bool.not_eq_true] at hfa ⊢; simp [hfa]⟩)
    · revert h3; cases pidValid <;> simp
    · revert h4; cases kernelOk <;> simp
    · revert h5; cases processOk <;> simp
    · revert h6; cases mapsListOk <;> simp
    · intro m hm
      by_contra hfm
      exact h7 (List.any_eq_true.mpr
        ⟨m, hm, by simp only [Bool.not_eq_true] at hfm ⊢; simp [hfm]⟩)
